import Mathlib

/-!
# Surge-Shield: shallow embedding of the hybrid forecasting core

This file embeds, in Lean 4, the forecasting engine of the Surge-Shield
repository (`backend/ml/hybrid_model.py`) and its alert classifier
(`backend/agent/orchestrator.py`), and proves or refutes the frozen claims
about them.

Modelling conventions:
* A calendar date is its Python proleptic-Gregorian ordinal, a `Nat`
  (`date.toordinal()`; ordinal 1 = 0001-01-01, a Monday).
* Floats are real numbers `ℝ`.
* Draws from `np.random.normal` are oracles carried by an `Env` record
  (a noise value per calendar date), so every run of the embedded code is a
  run of the Python code for some realisation of the random draws.
* The fitted `GradientBoostingRegressor` is opaque: `Env.fit` maps the
  training set to a prediction function `List ℝ → ℝ`, mirroring
  `gb.fit(X, y)` followed by `gb.predict`.
* `date.today()` is `Env.today`.
-/

namespace SurgeShield

/-- `datetime.date.weekday()`: Monday = 0, for a Python ordinal.
Ordinal 1 (0001-01-01) is a Monday. -/
def weekday (o : Nat) : Nat := (o + 6) % 7

/-- Civil (year, month, day) from a Python ordinal, via the standard
era-based Gregorian calendar algorithm (all operations on nonnegative
integers; `o + 305` is the day count since 0000-03-01). -/
def civilFromOrdinal (o : Nat) : Nat × Nat × Nat :=
  let z := o + 305
  let era := z / 146097
  let doe := z % 146097
  let yoe := (doe - doe / 1460 + doe / 36524 - doe / 146096) / 365
  let y := yoe + era * 400
  let doy := doe - (365 * yoe + yoe / 4 - yoe / 100)
  let mp := (5 * doy + 2) / 153
  let dayv := doy - (153 * mp + 2) / 5 + 1
  let m := if mp < 10 then mp + 3 else mp - 9
  (if m ≤ 2 then y + 1 else y, m, dayv)

/-- `date.month` of a Python ordinal. -/
def monthOf (o : Nat) : Nat := (civilFromOrdinal o).2.1

/-- `date.year` of a Python ordinal. -/
def yearOf (o : Nat) : Nat := (civilFromOrdinal o).1

/-- Ordinal of January 1st of year `y` (Python `date(y,1,1).toordinal()`). -/
def jan1Ordinal (y : Nat) : Nat :=
  1 + 365 * (y - 1) + (y - 1) / 4 - (y - 1) / 100 + (y - 1) / 400

/-- `current_date.timetuple().tm_yday`: 1-based day of the year. -/
def dayOfYear (o : Nat) : Nat := o + 1 - jan1Ordinal (yearOf o)

/-- An event record as consumed by the core (`ev["date"]` already converted
to an ordinal by `_as_date`; `ev["type"]`, `ev["name"]`,
`ev["historical_avg_surge_pct"]`). -/
structure Event where
  date : Nat
  type : String
  name : String
  historical_avg_surge_pct : ℝ

/-- `ForecastPoint` dataclass of `backend/ml/hybrid_model.py`. -/
structure ForecastPoint where
  date : Nat
  baseline_admissions : ℝ
  total_admissions : ℝ
  surge_pct : ℝ
  aqi : ℝ

/-- The per-date random draws consumed by `_generate_synthetic_history`
(`np.random.normal(0,5)`, `(0,15)`, `(0,5)` inside the event branch,
`(0,3)`), one record per calendar day. -/
structure GenNoise where
  baseNoise : ℝ
  aqiNoise : ℝ
  evNoise : ℝ
  surgeNoise : ℝ

/-- Ambient impurities of the Python code: the current day, the regressor
fit, and the normal random draws. -/
structure Env where
  today : Nat
  fit : List (List ℝ) → List ℝ → (List ℝ → ℝ)
  genNoise : Nat → GenNoise
  simNoise : Nat → ℝ

/-- The mutable fields of `HybridSurgeModel` (`self._gb`, `self._history`,
`self._trained`). -/
structure ModelState where
  gb : Option (List ℝ → ℝ)
  history : List ForecastPoint
  trained : Bool

/-- The dict comprehension `events_by_date` keyed by event date followed by
`.get(current_date)`: for duplicate dates the later event wins, hence the
first match in the reversed list. -/
def eventsByDate (evs : List Event) (d : Nat) : Option Event :=
  (evs.reverse).find? (fun ev => ev.date = d)

/-- `HybridSurgeModel._nearest_event`: first strict minimiser of the
absolute day delta, skipping past events when `future_only`. -/
def nearest_event (d : Nat) (evs : List Event) (futureOnly : Bool) :
    Option Event :=
  (evs.foldl
    (fun acc ev =>
      let delta : ℤ := (ev.date : ℤ) - (d : ℤ)
      if futureOnly = true ∧ delta < 0 then acc
      else
        match acc with
        | none => some (ev, delta.natAbs)
        | some p =>
            if delta.natAbs < p.2 then some (ev, delta.natAbs) else acc)
    none).map Prod.fst

/-- `HybridSurgeModel._compute_baseline_from_window`. -/
noncomputable def compute_baseline_from_window
    (current_date : Nat) (window : List ℝ) : ℝ :=
  if window = [] then 130
  else
    let recent := if 7 ≤ window.length
      then window.drop (window.length - 7) else window
    let base := recent.sum / (recent.length : ℝ)
    let weekly := 6 * Real.sin (2 * Real.pi * (weekday current_date : ℝ) / 7)
    max 60 (base + weekly)

/-- `HybridSurgeModel._simulate_aqi`. -/
noncomputable def simulate_aqi (env : Env) (current_date : Nat)
    (evs : List Event) : ℝ :=
  let doy := dayOfYear current_date
  let base := 120 + 25 * Real.sin (2 * Real.pi * (doy : ℝ) / 365)
  let aqi0 := base + env.simNoise current_date
  let aqi1 :=
    match nearest_event current_date evs false with
    | none => aqi0
    | some ev =>
        let deltaDays := ((ev.date : ℤ) - (current_date : ℤ)).natAbs
        if deltaDays ≤ 2 then
          if ev.type = "festival" then aqi0 + 90
          else if ev.type = "pollution" then aqi0 + 70
          else aqi0
        else if deltaDays ≤ 5 then
          if ev.type = "festival" then aqi0 + 40
          else if ev.type = "pollution" then aqi0 + 30
          else aqi0
        else aqi0
  max 50 (min 500 aqi1)

/-- `HybridSurgeModel._build_features`: the 7-dimensional feature vector. -/
noncomputable def build_features (d : Nat) (aqi : ℝ) (evs : List Event) :
    List ℝ :=
  let dow := weekday d
  let month := monthOf d
  let evToday := evs.find? (fun ev => ev.date = d)
  let evTypeToday := match evToday with
    | some ev => ev.type
    | none => ""
  let histSurgeToday : ℝ := match evToday with
    | some ev => ev.historical_avg_surge_pct
    | none => 0
  let isFestival : ℝ := if evTypeToday = "festival" then 1 else 0
  let isPollution : ℝ := if evTypeToday = "pollution" then 1 else 0
  let daysToNextEvent : ℝ :=
    match nearest_event d evs true with
    | some ev =>
        let delta : ℤ := (ev.date : ℤ) - (d : ℤ)
        ((max 0 (min 30 delta)).toNat : ℝ)
    | none => 30
  [(dow : ℝ), (month : ℝ), isFestival, isPollution, daysToNextEvent,
    aqi, histSurgeToday]

/-- One day of `HybridSurgeModel._generate_synthetic_history` (the body of
its `for i in range(days)` loop, which depends only on the current date,
the events and that day's random draws). -/
noncomputable def genPoint (env : Env) (evs : List Event) (d : Nat) :
    ForecastPoint :=
  let doy := dayOfYear d
  let dow := weekday d
  let seasonal := 15 * Real.sin (2 * Real.pi * (doy : ℝ) / 365)
  let weeklyTerm := 10 * Real.sin (2 * Real.pi * (dow : ℝ) / 7)
  let baseline := 130 + seasonal + weeklyTerm + (env.genNoise d).baseNoise
  let aqiBase := 110 + 30 * Real.sin (2 * Real.pi * (doy : ℝ) / 365)
  let aqi0 := aqiBase + (env.genNoise d).aqiNoise
  let bumped :=
    match eventsByDate evs d with
    | none => (aqi0, (0 : ℝ))
    | some ev =>
        let histSurge := ev.historical_avg_surge_pct
        if ev.type = "festival" then
          (aqi0 + 80, histSurge + (env.genNoise d).evNoise)
        else if ev.type = "pollution" then
          (aqi0 + 60, histSurge * 0.8 + (env.genNoise d).evNoise)
        else
          (aqi0, histSurge * 0.5 + (env.genNoise d).evNoise)
  let aqi := bumped.1
  let surge1 := bumped.2 +
    (if 300 ≤ aqi then 35 else if 200 ≤ aqi then 18
     else if 150 ≤ aqi then 8 else 0)
  let surge2 := surge1 + (env.genNoise d).surgeNoise
  let surge := max (-10) (min 120 surge2)
  let total := baseline * (1 + surge / 100)
  ⟨d, baseline, total, surge, aqi⟩

/-- `HybridSurgeModel._generate_synthetic_history`: the loop emits one
point per day, dated `start_date + i`. -/
noncomputable def generate_synthetic_history (env : Env) (start_date : Nat)
    (days : Nat) (evs : List Event) : List ForecastPoint :=
  (List.range days).map (fun i => genPoint env evs (start_date + i))

/-- `HybridSurgeModel.train`: regenerates 365 days of history starting at
`date.today() - 365`, builds the training arrays and fits the regressor;
the new state replaces `_gb`, `_history` and `_trained` wholesale. -/
noncomputable def train (env : Env) (evs : List Event) : ModelState :=
  let start_date := env.today - 365
  let history := generate_synthetic_history env start_date 365 evs
  let X := history.map (fun fp => build_features fp.date fp.aqi evs)
  let y := history.map (fun fp => fp.surge_pct)
  ⟨some (env.fit X y), history, true⟩

/-- The body of the per-day loop in `HybridSurgeModel.forecast_horizon`. -/
noncomputable def stepPoint (env : Env) (evs : List Event)
    (gb : List ℝ → ℝ) (d : Nat) (window : List ℝ) : ForecastPoint :=
  let baseline := compute_baseline_from_window d window
  let aqi := simulate_aqi env d evs
  let feats := build_features d aqi evs
  let surge := max (-20) (min 120 (gb feats))
  let total := baseline * (1 + surge / 100)
  ⟨d, baseline, total, surge, aqi⟩

/-- The `for _ in range(horizon_days)` loop of `forecast_horizon`:
emits a point, appends its total to the window, advances one day. -/
noncomputable def forecastLoop (env : Env) (evs : List Event)
    (gb : List ℝ → ℝ) : Nat → Nat → List ℝ → List ForecastPoint
  | _, 0, _ => []
  | d, n + 1, window =>
      let fp := stepPoint env evs gb d window
      fp :: forecastLoop env evs gb (d + 1) n
        (window ++ [fp.total_admissions])

/-- The readiness preamble of `forecast_horizon`: lazily train when
untrained or without a fitted regressor, then regenerate the cached
history (without retraining) when it holds fewer than 30 points. -/
noncomputable def readyState (env : Env) (st : ModelState)
    (start_date : Nat) (evs : List Event) : ModelState :=
  let st1 := if st.trained = false ∨ st.gb.isNone = true then train env evs
    else st
  if st1.history.length < 30 then
    { st1 with history :=
        generate_synthetic_history env (start_date - 365) 365 evs }
  else st1

/-- `HybridSurgeModel.forecast_horizon`: returns the emitted points and the
model state after the call. `horizon_days` is an `Int` because Python's
`range` treats a negative count as empty. After the readiness preamble the
regressor is always fitted, so the `Option.getD` default is unreachable. -/
noncomputable def forecast_horizon (env : Env) (st : ModelState)
    (start_date : Nat) (horizon_days : ℤ) (evs : List Event) :
    List ForecastPoint × ModelState :=
  let st2 := readyState env st start_date evs
  let window := (st2.history.drop (st2.history.length - 30)).map
    (fun fp => fp.total_admissions)
  let gbf := st2.gb.getD (fun _ => 0)
  (forecastLoop env evs gbf start_date horizon_days.toNat window, st2)

/-- The successive windows handed to `_compute_baseline_from_window`
during the `forecast_horizon` loop (one list per emitted day). -/
noncomputable def forecastWindowTrace (env : Env) (evs : List Event)
    (gb : List ℝ → ℝ) : Nat → Nat → List ℝ → List (List ℝ)
  | _, 0, _ => []
  | d, n + 1, window =>
      let fp := stepPoint env evs gb d window
      window :: forecastWindowTrace env evs gb (d + 1) n
        (window ++ [fp.total_admissions])

/-- The windows handed to the baseline estimator over a whole
`forecast_horizon` call. -/
noncomputable def forecastHorizonTrace (env : Env) (st : ModelState)
    (start_date : Nat) (horizon_days : ℤ) (evs : List Event) :
    List (List ℝ) :=
  let st2 := readyState env st start_date evs
  let window := (st2.history.drop (st2.history.length - 30)).map
    (fun fp => fp.total_admissions)
  let gbf := st2.gb.getD (fun _ => 0)
  forecastWindowTrace env evs gbf start_date horizon_days.toNat window

/-- Alert levels emitted by `_generate_alerts_for_forecast`. -/
inductive AlertLevel where
  | warning
  | critical
  deriving DecidableEq

/-- An alert description as handed to `insert_alert`: the level, the name
of an event within ±1 day used in the message (if any), and the tags. -/
structure Alert where
  level : AlertLevel
  eventLabel : Option String
  tags : List String

/-- `orchestrator._generate_alerts_for_forecast`: at most one alert per
point; critical when `surge >= 60 or aqi >= 350`, else warning when
`surge >= 30 or aqi >= 200`, else none. Every branch that sets a level
also sets a (nonempty) message, so `insert_alert` fires exactly when a
level is chosen. -/
noncomputable def generate_alerts_for_forecast (fp : ForecastPoint)
    (evs : List Event) : Option Alert :=
  let eventLabel :=
    (evs.find? (fun ev => ((ev.date : ℤ) - (fp.date : ℤ)).natAbs ≤ 1)).map
      (fun ev => ev.name)
  if 60 ≤ fp.surge_pct ∨ 350 ≤ fp.aqi then
    some ⟨AlertLevel.critical, eventLabel, ["forecast", "high-surge"]⟩
  else if 30 ≤ fp.surge_pct ∨ 200 ≤ fp.aqi then
    some ⟨AlertLevel.warning, eventLabel, ["forecast", "surge-warning"]⟩
  else none

/-- The alert-classification calls the agent loop in `run_surge_agent`
makes for a list of forecast points. -/
noncomputable def alertsForRun (pts : List ForecastPoint)
    (evs : List Event) : List Alert :=
  pts.filterMap (fun fp => generate_alerts_for_forecast fp evs)

/-! ### Concrete instances used by witnesses and counterexamples -/

/-- A concrete environment: today is ordinal 1000, the fitted regressor
predicts 0, all random draws are 0. -/
noncomputable def env0 : Env :=
  ⟨1000, fun _ _ => fun _ => 0, fun _ => ⟨0, 0, 0, 0⟩, fun _ => 0⟩

/-- An environment whose generator AQI draw is −200 (a realisable value of
`np.random.normal(0, 15)`). -/
noncomputable def env1 : Env :=
  ⟨1000, fun _ _ => fun _ => 0, fun _ => ⟨0, -200, 0, 0⟩, fun _ => 0⟩

/-- A fixed history point. -/
noncomputable def dummyFp : ForecastPoint := ⟨1, 130, 130, 0, 100⟩

/-- A trained state with a 30-point cached history. -/
noncomputable def st30 : ModelState :=
  ⟨some (fun _ => 0), List.replicate 30 dummyFp, true⟩

/-- The freshly constructed, untrained state (`HybridSurgeModel.__init__`). -/
def stU : ModelState := ⟨none, [], false⟩

noncomputable instance : Inhabited ForecastPoint := ⟨dummyFp⟩

/-! ### Helper lemmas about the loop structure -/

lemma stepPoint_date (env : Env) (evs : List Event) (gb : List ℝ → ℝ)
    (d : Nat) (w : List ℝ) : (stepPoint env evs gb d w).date = d := rfl

lemma stepPoint_total (env : Env) (evs : List Event) (gb : List ℝ → ℝ)
    (d : Nat) (w : List ℝ) :
    (stepPoint env evs gb d w).total_admissions
      = (stepPoint env evs gb d w).baseline_admissions
        * (1 + (stepPoint env evs gb d w).surge_pct / 100) := rfl

lemma genPoint_date (env : Env) (evs : List Event) (d : Nat) :
    (genPoint env evs d).date = d := rfl

lemma genPoint_total (env : Env) (evs : List Event) (d : Nat) :
    (genPoint env evs d).total_admissions
      = (genPoint env evs d).baseline_admissions
        * (1 + (genPoint env evs d).surge_pct / 100) := rfl

lemma forecastLoop_map_date (env : Env) (evs : List Event)
    (gb : List ℝ → ℝ) :
    ∀ (n d : Nat) (w : List ℝ),
      (forecastLoop env evs gb d n w).map ForecastPoint.date
        = (List.range n).map (fun i => d + i) := by
  intro n
  induction n with
  | zero => intro d w; simp [forecastLoop]
  | succ n ih =>
      intro d w
      rw [List.range_succ_eq_map]
      simp only [forecastLoop, List.map_cons, List.map_map, stepPoint_date]
      have h1 : (fun i => d + i) ∘ Nat.succ = fun i => (d + 1) + i :=
        funext (fun i => by simp only [Function.comp_apply]; omega)
      rw [h1, ih (d + 1)]
      simp

lemma forecastLoop_length (env : Env) (evs : List Event) (gb : List ℝ → ℝ)
    (n d : Nat) (w : List ℝ) :
    (forecastLoop env evs gb d n w).length = n := by
  have h := forecastLoop_map_date env evs gb n d w
  have h2 := congrArg List.length h
  simpa using h2

lemma eq_stepPoint_of_mem_forecastLoop (env : Env) (evs : List Event)
    (gb : List ℝ → ℝ) :
    ∀ (n d : Nat) (w : List ℝ) (fp : ForecastPoint),
      fp ∈ forecastLoop env evs gb d n w →
      ∃ d0 w0, fp = stepPoint env evs gb d0 w0 := by
  intro n
  induction n with
  | zero => intro d w fp h; simp [forecastLoop] at h
  | succ n ih =>
      intro d w fp h
      simp only [forecastLoop, List.mem_cons] at h
      rcases h with h1 | h2
      · exact ⟨d, w, h1⟩
      · exact ih _ _ fp h2

lemma generate_synthetic_history_length (env : Env) (start_date : Nat)
    (days : Nat) (evs : List Event) :
    (generate_synthetic_history env start_date days evs).length = days := by
  simp [generate_synthetic_history]

lemma mem_generate_synthetic_history (env : Env) (start_date : Nat)
    (days : Nat) (evs : List Event) (fp : ForecastPoint)
    (h : fp ∈ generate_synthetic_history env start_date days evs) :
    ∃ d0, fp = genPoint env evs d0 := by
  simp only [generate_synthetic_history, List.mem_map] at h
  obtain ⟨i, _, hi⟩ := h
  exact ⟨start_date + i, hi.symm⟩

lemma generate_synthetic_history_getLast (env : Env) (start_date : Nat)
    (n : Nat) (evs : List Event) :
    (generate_synthetic_history env start_date (n + 1) evs).getLast?
      = some (genPoint env evs (start_date + n)) := by
  unfold generate_synthetic_history
  rw [List.range_succ, List.map_append]
  simp

/-! ### Helper lemmas about the readiness preamble -/

lemma train_history (env : Env) (evs : List Event) :
    (train env evs).history
      = generate_synthetic_history env (env.today - 365) 365 evs := rfl

lemma train_trained (env : Env) (evs : List Event) :
    (train env evs).trained = true := rfl

lemma readyState_of_trained (env : Env) (st : ModelState)
    (start_date : Nat) (evs : List Event)
    (h1 : st.trained = true) (h2 : st.gb.isNone = false)
    (h3 : 30 ≤ st.history.length) :
    readyState env st start_date evs = st := by
  have hc : (if st.trained = false ∨ st.gb.isNone = true then train env evs
      else st) = st := if_neg (by simp [h1, h2])
  simp only [readyState]
  rw [hc, if_neg (by omega : ¬(st.history.length < 30))]

lemma readyState_of_untrained (env : Env) (st : ModelState)
    (start_date : Nat) (evs : List Event)
    (h : st.trained = false ∨ st.gb.isNone = true) :
    readyState env st start_date evs = train env evs := by
  have hc : (if st.trained = false ∨ st.gb.isNone = true then train env evs
      else st) = train env evs := if_pos h
  simp only [readyState]
  rw [hc, if_neg]
  rw [train_history, generate_synthetic_history_length]
  omega

lemma headI_mem_of_ne_nil {α : Type} [Inhabited α] {l : List α}
    (h : l ≠ []) : l.headI ∈ l := by
  cases l with
  | nil => exact absurd rfl h
  | cons a t => simp

lemma forecast_horizon_fst (env : Env) (st : ModelState) (start_date : Nat)
    (horizon_days : ℤ) (evs : List Event) :
    (forecast_horizon env st start_date horizon_days evs).1
      = forecastLoop env evs
          ((readyState env st start_date evs).gb.getD (fun _ => 0))
          start_date horizon_days.toNat
          (((readyState env st start_date evs).history.drop
              ((readyState env st start_date evs).history.length - 30)).map
            (fun fp => fp.total_admissions)) := rfl

lemma readyState_of_short_history (env : Env) (st : ModelState)
    (start_date : Nat) (evs : List Event)
    (h1 : st.trained = true) (h2 : st.gb.isNone = false)
    (h3 : st.history.length < 30) :
    readyState env st start_date evs
      = { st with history :=
          generate_synthetic_history env (start_date - 365) 365 evs } := by
  have hc : (if st.trained = false ∨ st.gb.isNone = true then train env evs
      else st) = st := if_neg (by simp [h1, h2])
  simp only [readyState]
  rw [hc, if_pos h3]

/-! ### Claims -/

/-- C1: for every start date, every non-negative integer `N` and every
event collection, `forecast_horizon` returns exactly `N` forecast points
whose dates are strictly consecutive calendar days beginning at the start
date (the i-th point is dated `start_date + i`); `N = 0` yields the empty
sequence. -/
theorem C1_forecast_horizon_shape (env : Env) (st : ModelState)
    (start_date : Nat) (N : Nat) (evs : List Event) :
    ((forecast_horizon env st start_date (N : ℤ) evs).1.length = N)
    ∧ ((forecast_horizon env st start_date (N : ℤ) evs).1.map
        ForecastPoint.date = (List.range N).map (fun i => start_date + i))
    ∧ ((forecast_horizon env st start_date (0 : ℤ) evs).1 = []) := by
  unfold forecast_horizon
  refine ⟨?_, ?_, ?_⟩
  · simp only [Int.toNat_natCast]
    exact forecastLoop_length env evs _ N start_date _
  · simp only [Int.toNat_natCast]
    exact forecastLoop_map_date env evs _ N start_date _
  · simp [forecastLoop]

/-- C2: every `ForecastPoint` returned by the inference pipeline
(`forecast_horizon`) and every `ForecastPoint` produced by the
synthetic-history generator satisfies
`total_admissions = baseline_admissions * (1 + surge_pct/100)`
(exactly, in real arithmetic, hence within any floating tolerance). -/
theorem C2_total_consistency (env : Env) (st : ModelState)
    (start_date : Nat) (horizon_days : ℤ) (evs : List Event)
    (gstart gdays : Nat) :
    (∀ fp ∈ (forecast_horizon env st start_date horizon_days evs).1,
        fp.total_admissions
          = fp.baseline_admissions * (1 + fp.surge_pct / 100))
    ∧ (∀ fp ∈ generate_synthetic_history env gstart gdays evs,
        fp.total_admissions
          = fp.baseline_admissions * (1 + fp.surge_pct / 100)) := by
  constructor
  · intro fp hmem
    rw [forecast_horizon_fst] at hmem
    obtain ⟨d0, w0, rfl⟩ :=
      eq_stepPoint_of_mem_forecastLoop env evs _ _ _ _ fp hmem
    exact stepPoint_total env evs _ d0 w0
  · intro fp hmem
    obtain ⟨d0, rfl⟩ :=
      mem_generate_synthetic_history env gstart gdays evs fp hmem
    exact genPoint_total env evs d0

/-- Witness for C2: the invariant holds at the concrete point emitted by
`forecast_horizon env0 st30 1000 1 []`. -/
theorem C2_total_consistency_witness :
    (forecast_horizon env0 st30 1000 1 []).1.headI.total_admissions
      = (forecast_horizon env0 st30 1000 1 []).1.headI.baseline_admissions
        * (1 + (forecast_horizon env0 st30 1000 1 []).1.headI.surge_pct
            / 100) := by
  have hlen : (forecast_horizon env0 st30 1000 1 []).1.length = 1 := by
    rw [forecast_horizon_fst]
    exact forecastLoop_length _ _ _ _ _ _
  exact (C2_total_consistency env0 st30 1000 1 [] 0 0).1 _
    (headI_mem_of_ne_nil (fun hnil => by rw [hnil] at hlen; simp at hlen))

/-- C3: the alert classifier emits `critical` exactly when
`surge_pct ≥ 60 ∨ aqi ≥ 350`, else `warning` exactly when
`surge_pct ≥ 30 ∨ aqi ≥ 200`, else no alert; in particular the eight
boundary cases listed in the claim behave as stated. -/
theorem C3_alert_classifier (fp : ForecastPoint) (evs : List Event) :
    (((generate_alerts_for_forecast fp evs).map Alert.level
        = some AlertLevel.critical)
      ↔ (60 ≤ fp.surge_pct ∨ 350 ≤ fp.aqi))
    ∧ (((generate_alerts_for_forecast fp evs).map Alert.level
        = some AlertLevel.warning)
      ↔ (¬(60 ≤ fp.surge_pct ∨ 350 ≤ fp.aqi)
          ∧ (30 ≤ fp.surge_pct ∨ 200 ≤ fp.aqi)))
    ∧ ((generate_alerts_for_forecast fp evs = none)
      ↔ (¬(60 ≤ fp.surge_pct ∨ 350 ≤ fp.aqi)
          ∧ ¬(30 ≤ fp.surge_pct ∨ 200 ≤ fp.aqi)))
    ∧ ((generate_alerts_for_forecast ⟨0, 0, 0, 59.9, 0⟩ []).map Alert.level
        = some AlertLevel.warning)
    ∧ ((generate_alerts_for_forecast ⟨0, 0, 0, 60, 0⟩ []).map Alert.level
        = some AlertLevel.critical)
    ∧ ((generate_alerts_for_forecast ⟨0, 0, 0, 0, 349⟩ []).map Alert.level
        = some AlertLevel.warning)
    ∧ ((generate_alerts_for_forecast ⟨0, 0, 0, 0, 350⟩ []).map Alert.level
        = some AlertLevel.critical)
    ∧ (generate_alerts_for_forecast ⟨0, 0, 0, 29.9, 0⟩ [] = none)
    ∧ ((generate_alerts_for_forecast ⟨0, 0, 0, 30, 0⟩ []).map Alert.level
        = some AlertLevel.warning)
    ∧ (generate_alerts_for_forecast ⟨0, 0, 0, 0, 199⟩ [] = none)
    ∧ ((generate_alerts_for_forecast ⟨0, 0, 0, 0, 200⟩ []).map Alert.level
        = some AlertLevel.warning) := by
  have key : ∀ (fq : ForecastPoint) (es : List Event),
      (((generate_alerts_for_forecast fq es).map Alert.level
          = some AlertLevel.critical)
        ↔ (60 ≤ fq.surge_pct ∨ 350 ≤ fq.aqi))
      ∧ (((generate_alerts_for_forecast fq es).map Alert.level
          = some AlertLevel.warning)
        ↔ (¬(60 ≤ fq.surge_pct ∨ 350 ≤ fq.aqi)
            ∧ (30 ≤ fq.surge_pct ∨ 200 ≤ fq.aqi)))
      ∧ ((generate_alerts_for_forecast fq es = none)
        ↔ (¬(60 ≤ fq.surge_pct ∨ 350 ≤ fq.aqi)
            ∧ ¬(30 ≤ fq.surge_pct ∨ 200 ≤ fq.aqi))) := by
    intro fq es
    by_cases hc : 60 ≤ fq.surge_pct ∨ 350 ≤ fq.aqi
    · simp [generate_alerts_for_forecast, hc]
    · by_cases hw : 30 ≤ fq.surge_pct ∨ 200 ≤ fq.aqi
      · simp [generate_alerts_for_forecast, hc, hw]
      · simp [generate_alerts_for_forecast, hc, hw]
  refine ⟨(key fp evs).1, (key fp evs).2.1, (key fp evs).2.2,
    ?_, ?_, ?_, ?_, ?_, ?_, ?_, ?_⟩
  · exact (key ⟨0, 0, 0, 59.9, 0⟩ []).2.1.mpr (by norm_num)
  · exact (key ⟨0, 0, 0, 60, 0⟩ []).1.mpr (by norm_num)
  · exact (key ⟨0, 0, 0, 0, 349⟩ []).2.1.mpr (by norm_num)
  · exact (key ⟨0, 0, 0, 0, 350⟩ []).1.mpr (by norm_num)
  · exact (key ⟨0, 0, 0, 29.9, 0⟩ []).2.2.mpr (by norm_num)
  · exact (key ⟨0, 0, 0, 30, 0⟩ []).2.1.mpr (by norm_num)
  · exact (key ⟨0, 0, 0, 0, 199⟩ []).2.2.mpr (by norm_num)
  · exact (key ⟨0, 0, 0, 0, 200⟩ []).2.1.mpr (by norm_num)

/-- C4 counterexample: the synthetic-history generator does not clamp its
`aqi` values: with the realisable AQI noise draw −200, the generated point
for ordinal 700000 carries an `aqi` below 50, so not every generated `aqi`
lies in [50, 500]. -/
theorem C4_counterexample :
    ¬ (∀ fp ∈ generate_synthetic_history env1 700000 1 [],
          50 ≤ fp.aqi ∧ fp.aqi ≤ 500) := by
  intro h
  have hmem : genPoint env1 [] 700000
      ∈ generate_synthetic_history env1 700000 1 [] := by
    simp [generate_synthetic_history]
  have h50 := (h _ hmem).1
  have hsin :=
    Real.sin_le_one (2 * Real.pi * ((dayOfYear 700000 : ℕ) : ℝ) / 365)
  simp only [genPoint, env1, eventsByDate, List.reverse_nil,
    List.find?_nil] at h50
  nlinarith

/-- C4 (amended): every value returned by the AQI simulator lies in
[50, 500]; the synthetic-history generator's `aqi` values are not clamped
(see the counterexample). -/
theorem C4_simulate_aqi_range (env : Env) (d : Nat) (evs : List Event) :
    50 ≤ simulate_aqi env d evs ∧ simulate_aqi env d evs ≤ 500 := by
  simp only [simulate_aqi]
  exact ⟨le_max_left _ _, max_le (by norm_num) (min_le_left _ _)⟩

/-- C5 counterexample: with an untrained model, `forecast_horizon` with a
zero horizon still trains inside the call (a side effect on the model
state): the trained flag flips from `false` to `true`. -/
theorem C5_counterexample :
    ((forecast_horizon env0 stU 1000 0 []).1 = [])
    ∧ ((forecast_horizon env0 stU 1000 0 []).2.trained = true)
    ∧ (stU.trained = false) := by
  refine ⟨?_, ?_, rfl⟩
  · rw [forecast_horizon_fst]; rfl
  · show (readyState env0 stU 1000 []).trained = true
    rw [readyState_of_untrained env0 stU 1000 [] (Or.inl rfl)]; rfl

/-- C5 (amended): a zero horizon always returns the empty sequence and the
agent loop then performs no alert classification; the model state is
additionally unchanged whenever the model is already trained with a fitted
regressor and at least 30 cached history points (with an untrained model
the call still trains as a side effect, see the counterexample). -/
theorem C5_zero_horizon (env : Env) (st : ModelState) (start_date : Nat)
    (evs : List Event) :
    ((forecast_horizon env st start_date 0 evs).1 = [])
    ∧ (alertsForRun (forecast_horizon env st start_date 0 evs).1 evs = [])
    ∧ (st.trained = true → st.gb.isNone = false →
        30 ≤ st.history.length →
        (forecast_horizon env st start_date 0 evs).2 = st) := by
  have h1 : (forecast_horizon env st start_date 0 evs).1 = [] := by
    rw [forecast_horizon_fst]; rfl
  refine ⟨h1, by rw [h1]; rfl, ?_⟩
  intro ht hg hl
  show readyState env st start_date evs = st
  exact readyState_of_trained env st start_date evs ht hg hl

/-- Witness for C5 (amended): at the concrete trained state `st30`, a zero
horizon leaves the model state unchanged. -/
theorem C5_zero_horizon_witness :
    (forecast_horizon env0 st30 1000 0 []).2 = st30 :=
  (C5_zero_horizon env0 st30 1000 []).2.2 rfl rfl
    (by simp [st30])

/-- C6 counterexample: a negative horizon does not fail with any error: at
a concrete trained state, `forecast_horizon` with horizon −1 returns
normally with the empty sequence and the unchanged model state. -/
theorem C6_counterexample :
    forecast_horizon env0 st30 1000 (-1) [] = ([], st30) := by
  have h1 : (forecast_horizon env0 st30 1000 (-1) []).1 = [] := by
    rw [forecast_horizon_fst]; rfl
  have h2 : (forecast_horizon env0 st30 1000 (-1) []).2 = st30 := by
    show readyState env0 st30 1000 [] = st30
    exact readyState_of_trained env0 st30 1000 [] rfl rfl (by simp [st30])
  rw [Prod.ext_iff]
  exact ⟨h1, h2⟩

/-- C6 (amended): a negative horizon is not rejected with an InvalidInput
error; Python's `range` treats it as empty, so the call behaves exactly
like a zero horizon: same empty output, same readiness side effects. -/
theorem C6_negative_horizon (env : Env) (st : ModelState)
    (start_date : Nat) (evs : List Event) (h : ℤ) (hneg : h ≤ 0) :
    forecast_horizon env st start_date h evs
      = forecast_horizon env st start_date 0 evs := by
  have ht : h.toNat = (0 : ℤ).toNat := by omega
  simp only [forecast_horizon, ht]

/-- Witness for C6 (amended): horizon −1 behaves like horizon 0 at a
concrete input. -/
theorem C6_negative_horizon_witness :
    forecast_horizon env0 st30 1000 (-1) []
      = forecast_horizon env0 st30 1000 0 [] :=
  C6_negative_horizon env0 st30 1000 [] (-1) (by norm_num)

/-- C7 counterexample: with an untrained model and forecast start ordinal
1010, the synthesized training history ends at ordinal 999 — the day
before `today` (ordinal 1000 in `env0`) — not at 1009, the day before
`start_date`. -/
theorem C7_counterexample :
    ((forecast_horizon env0 stU 1010 0 []).2.history.getLast?.map
        ForecastPoint.date = some 999)
    ∧ (999 : ℕ) ≠ 1010 - 1 := by
  constructor
  · show (readyState env0 stU 1010 []).history.getLast?.map
      ForecastPoint.date = some 999
    rw [readyState_of_untrained env0 stU 1010 [] (Or.inl rfl),
      train_history]
    have he : env0.today - 365 = 635 := rfl
    rw [he]
    have hl := generate_synthetic_history_getLast env0 635 364 []
    norm_num at hl
    rw [hl]
    simp [genPoint_date]
  · omega

/-- C7 (amended): with no trained regressor (or no fitted handle),
`forecast_horizon` synthesizes 365 days of history ending the day before
*today* — not the day before `start_date` — and trains the regressor on
exactly that history synchronously inside the call; when instead the model
is already trained but the cached history has fewer than 30 points, it
regenerates 365 days ending the day before `start_date` as the baseline
seed, without retraining. -/
theorem C7_lazy_training (env : Env) (st : ModelState) (start_date : Nat)
    (h : ℤ) (evs : List Event) :
    ((st.trained = false ∨ st.gb.isNone = true) →
      ((forecast_horizon env st start_date h evs).2 = train env evs)
      ∧ ((train env evs).trained = true)
      ∧ ((train env evs).gb
          = some (env.fit
              ((generate_synthetic_history env (env.today - 365) 365
                evs).map (fun fp => build_features fp.date fp.aqi evs))
              ((generate_synthetic_history env (env.today - 365) 365
                evs).map (fun fp => fp.surge_pct))))
      ∧ ((train env evs).history
          = generate_synthetic_history env (env.today - 365) 365 evs)
      ∧ (365 ≤ env.today →
          (train env evs).history.getLast?.map ForecastPoint.date
            = some (env.today - 1)))
    ∧ (st.trained = true → st.gb.isNone = false →
        st.history.length < 30 →
        ((forecast_horizon env st start_date h evs).2
          = { st with history :=
              generate_synthetic_history env (start_date - 365) 365 evs })
        ∧ ((forecast_horizon env st start_date h evs).2.gb = st.gb)
        ∧ ((forecast_horizon env st start_date h evs).2.trained
            = st.trained)) := by
  constructor
  · intro hu
    refine ⟨?_, rfl, rfl, rfl, ?_⟩
    · show readyState env st start_date evs = train env evs
      exact readyState_of_untrained env st start_date evs hu
    · intro htoday
      rw [train_history]
      have hl := generate_synthetic_history_getLast env
        (env.today - 365) 364 evs
      have h365 : (364 : ℕ) + 1 = 365 := rfl
      rw [h365] at hl
      rw [hl]
      simp only [Option.map_some', genPoint_date, Option.some.injEq]
      omega
  · intro ht hg hl
    have hr : readyState env st start_date evs
        = { st with history :=
            generate_synthetic_history env (start_date - 365) 365 evs } :=
      readyState_of_short_history env st start_date evs ht hg hl
    have h2 : (forecast_horizon env st start_date h evs).2
        = { st with history :=
            generate_synthetic_history env (start_date - 365) 365 evs } := by
      show readyState env st start_date evs = _
      exact hr
    refine ⟨h2, ?_, ?_⟩
    · rw [h2]
    · rw [h2]

/-- Witness for C7 (amended): at the concrete untrained state, the
synthesized history ends the day before `env0.today`. -/
theorem C7_lazy_training_witness :
    (train env0 []).history.getLast?.map ForecastPoint.date
      = some (env0.today - 1) :=
  ((C7_lazy_training env0 stU 1010 0 []).1 (Or.inl rfl)).2.2.2.2
    (by show (365 : ℕ) ≤ 1000; norm_num)

/-- C8: for a non-empty window the baseline estimate equals the arithmetic
mean of the last `min(7, len(window))` window entries plus
`6·sin(2π·weekday/7)`, floored at 60; for the empty window it equals the
constant 130. -/
theorem C8_baseline_estimator (d : Nat) (w : List ℝ) :
    (w ≠ [] →
      compute_baseline_from_window d w
        = max 60
            ((w.drop (w.length - min 7 w.length)).sum
                / ((min 7 w.length : ℕ) : ℝ)
              + 6 * Real.sin (2 * Real.pi * (weekday d : ℝ) / 7)))
    ∧ compute_baseline_from_window d [] = 130 := by
  constructor
  · intro hne
    simp only [compute_baseline_from_window]
    rw [if_neg hne]
    by_cases h7 : 7 ≤ w.length
    · rw [if_pos h7]
      have hmin : min 7 w.length = 7 := by omega
      have hlen : (w.drop (w.length - 7)).length = 7 := by
        rw [List.length_drop]; omega
      rw [hmin, hlen]
    · rw [if_neg h7]
      have hmin : min 7 w.length = w.length := by omega
      have hdrop : w.length - w.length = 0 := by omega
      rw [hmin, hdrop, List.drop_zero]
  · simp [compute_baseline_from_window]

/-- Witness for C8: the baseline estimate at a concrete non-empty window. -/
theorem C8_baseline_estimator_witness :
    compute_baseline_from_window 5 [(100 : ℝ)]
      = max 60
          (([(100 : ℝ)].drop
                ([(100 : ℝ)].length - min 7 [(100 : ℝ)].length)).sum
              / ((min 7 [(100 : ℝ)].length : ℕ) : ℝ)
            + 6 * Real.sin (2 * Real.pi * (weekday 5 : ℝ) / 7)) :=
  (C8_baseline_estimator 5 [(100 : ℝ)]).1 (by simp)

lemma forecastWindowTrace_map_length (env : Env) (evs : List Event)
    (gb : List ℝ → ℝ) :
    ∀ (n d : Nat) (w : List ℝ),
      (forecastWindowTrace env evs gb d n w).map List.length
        = (List.range n).map (fun i => w.length + i) := by
  intro n
  induction n with
  | zero => intro d w; simp [forecastWindowTrace]
  | succ n ih =>
      intro d w
      have hlen : (w ++ [(stepPoint env evs gb d w).total_admissions]).length
          = w.length + 1 := by simp
      rw [List.range_succ_eq_map]
      simp only [forecastWindowTrace, List.map_cons, List.map_map]
      rw [ih (d + 1), hlen]
      have h2 : (fun i => w.length + i) ∘ Nat.succ
          = fun i => w.length + 1 + i := by
        funext i
        simp only [Function.comp_apply]
        omega
      rw [h2]
      simp

lemma forecastHorizonTrace_def (env : Env) (st : ModelState)
    (start_date : Nat) (horizon_days : ℤ) (evs : List Event) :
    forecastHorizonTrace env st start_date horizon_days evs
      = forecastWindowTrace env evs
          ((readyState env st start_date evs).gb.getD (fun _ => 0))
          start_date horizon_days.toNat
          (((readyState env st start_date evs).history.drop
              ((readyState env st start_date evs).history.length - 30)).map
            (fun fp => fp.total_admissions)) := rfl

/-- C9 counterexample: at a trained state with a 30-point cached history
and horizon 2, the window handed to the baseline estimator at the second
step holds 31 entries — the loop appends without truncating to 30. -/
theorem C9_counterexample :
    ((forecastHorizonTrace env0 st30 1000 2 []).map List.length
      = [30, 31])
    ∧ ¬ ((31 : ℕ) ≤ 30) := by
  constructor
  · have hr : readyState env0 st30 1000 [] = st30 :=
      readyState_of_trained env0 st30 1000 [] rfl rfl (by simp [st30])
    rw [forecastHorizonTrace_def, hr, forecastWindowTrace_map_length]
    simp only [st30, List.length_map, List.length_drop,
      List.length_replicate]
    decide
  · omega

/-- C9 (amended): the window handed to the baseline estimator holds
`min(30, |history|)` entries at the first step — seeded from the most
recent 30 cached totals — and grows by exactly one entry per forecast day
(it is never truncated inside the loop); only the most recent 7 entries
feed the moving average, per the baseline estimator. -/
theorem C9_window_growth (env : Env) (st : ModelState) (start_date : Nat)
    (horizon_days : ℤ) (evs : List Event) :
    (forecastHorizonTrace env st start_date horizon_days evs).map
        List.length
      = (List.range horizon_days.toNat).map
          (fun i =>
            min 30 (readyState env st start_date evs).history.length
              + i) := by
  have hw : (((readyState env st start_date evs).history.drop
        ((readyState env st start_date evs).history.length - 30)).map
        (fun fp => fp.total_admissions)).length
      = min 30 (readyState env st start_date evs).history.length := by
    simp only [List.length_map, List.length_drop]
    omega
  rw [forecastHorizonTrace_def, forecastWindowTrace_map_length, hw]

/-- C10: if the regressor is already trained with a fitted handle and the
cached history holds at least 30 points, `forecast_horizon` mutates no
model state: the state after the call equals the state before it, for
every start date, horizon and event collection (the rolling window is a
local copy). -/
theorem C10_frame (env : Env) (st : ModelState) (start_date : Nat)
    (horizon_days : ℤ) (evs : List Event)
    (h1 : st.trained = true) (h2 : st.gb.isNone = false)
    (h3 : 30 ≤ st.history.length) :
    (forecast_horizon env st start_date horizon_days evs).2 = st := by
  show readyState env st start_date evs = st
  exact readyState_of_trained env st start_date evs h1 h2 h3

/-- Witness for C10: a concrete trained 30-point state is unchanged by a
14-day forecast. -/
theorem C10_frame_witness :
    (forecast_horizon env0 st30 1000 14 []).2 = st30 :=
  C10_frame env0 st30 1000 14 [] rfl rfl (by simp [st30])

end SurgeShield
